import Mathlib

/-!
Verification of the `wiki-articles` repository (`search_wiki_article.py`)
against its natural-language specification.

The repository is a thin client over an external page-fetch service.  We
embed the original logic shallowly:

* the external service is a parameter `svc : String → String → Option PageData`
  (language, title ↦ page or `none` when the page does not exist, mirroring
  `page.exists()`);
* Python dictionaries produced by the read operations become association
  lists `List (String × Value)` preserving insertion order;
* the facade `WikiArticles` carries its `Config` and the language its
  service handle was acquired with; each read operation is written as a
  state transformer returning the result together with the facade state,
  so that frame properties are statable;
* Python's truthiness test `if limit:` and the slice `links[:limit]`
  (including negative indices) are embedded exactly.
-/

/-- The shape of the external page object, narrowed to the fields the
repository reads: `title`, `fullurl`, `summary`, `text`, category titles
(`cat.title for cat in page.categories.values()`), link titles
(`page.links.keys()`, an ordered sequence) and top-level section titles. -/
structure PageData where
  title : String
  fullurl : String
  summary : String
  text : String
  categories : List String
  links : List String
  sections : List String
deriving DecidableEq

/-- Values stored in the result dictionaries: strings, lists of strings,
or integers (`total_links`). -/
inductive Value where
  | s : String → Value
  | l : List String → Value
  | n : Nat → Value
deriving DecidableEq

/-- A Python dict as built by the repository: an association list in
insertion order. -/
abbrev PyDict := List (String × Value)

/-- The external page-fetch service: given the handle's language and a
title, returns the page, or `none` when `page.exists()` is false. -/
abbrev Service := String → String → Option PageData

/-- `Config.__init__(self, language='en')`: stores the code verbatim. -/
structure Config where
  language : String
deriving DecidableEq

/-- `Config.set_language`: overwrites the stored code, no validation. -/
def Config.set_language (_ : Config) (language : String) : Config :=
  ⟨language⟩

/-- `Config.to_dict`: returns the configuration as a dictionary. -/
def Config.to_dict (c : Config) : List (String × String) :=
  [("language", c.language)]

/-- `Config.__repr__`. -/
def Config.reprStr (c : Config) : String :=
  "Config(language=\x27" ++ c.language ++ "\x27)"

/-- The facade state: its `Config` and the language the current service
handle was acquired with (`wikipediaapi.Wikipedia(..., language=...)`). -/
structure WikiArticles where
  config : Config
  wiki : String
deriving DecidableEq

/-- `WikiArticles.__init__`: `self.config = config or Config()` (a `Config`
object is always truthy, so `or` reduces to a default for `None`), then
acquires the handle scoped to `self.config.language`. -/
def WikiArticles.init (config : Option Config) : WikiArticles :=
  let c := config.getD ⟨"en"⟩
  ⟨c, c.language⟩

/-- The error dictionary every read operation returns when
`page.exists()` is false. -/
def errorResult (title : String) : PyDict :=
  [("error", Value.s ("Page \x27" ++ title ++ "\x27 does not exist"))]

/-- `WikiArticles.get_full_article`: fetch the page; on failure the error
dict, on success the seven-field projection with `links` truncated by the
slice `[:20]`. The method assigns no attribute, so the returned state is
the input state. -/
def WikiArticles.get_full_article (svc : Service) (w : WikiArticles)
    (title : String) : PyDict × WikiArticles :=
  match svc w.wiki title with
  | none => (errorResult title, w)
  | some page =>
      ([("title", Value.s page.title),
        ("url", Value.s page.fullurl),
        ("summary", Value.s page.summary),
        ("full_text", Value.s page.text),
        ("categories", Value.l page.categories),
        ("links", Value.l (page.links.take 20)),
        ("sections", Value.l page.sections)], w)

/-- `WikiArticles.get_summary`: error dict, or the two-field projection. -/
def WikiArticles.get_summary (svc : Service) (w : WikiArticles)
    (title : String) : PyDict × WikiArticles :=
  match svc w.wiki title with
  | none => (errorResult title, w)
  | some page =>
      ([("title", Value.s page.title),
        ("summary", Value.s page.summary)], w)

/-- `WikiArticles.get_sections`: error dict, or title plus top-level
section titles. -/
def WikiArticles.get_sections (svc : Service) (w : WikiArticles)
    (title : String) : PyDict × WikiArticles :=
  match svc w.wiki title with
  | none => (errorResult title, w)
  | some page =>
      ([("title", Value.s page.title),
        ("sections", Value.l page.sections)], w)

/-- Python truthiness of the optional `limit` argument: `None` and `0` are
falsy, every other integer is truthy. -/
def pyTruthy : Option Int → Bool
  | none => false
  | some n => n != 0

/-- The Python slice `xs[:n]`: for `n ≥ 0` the first `n` elements, for
`n < 0` all but the last `|n|` elements (`Int.toNat` clamps at zero). -/
def pySliceTo (xs : List String) (n : Int) : List String :=
  if 0 ≤ n then xs.take n.toNat
  else xs.take ((xs.length : Int) + n).toNat

/-- `WikiArticles.get_links`: error dict, or title, the links truncated by
`links[:limit]` when `limit` is truthy, and `total_links` recomputed from
the untruncated `page.links.keys()`. -/
def WikiArticles.get_links (svc : Service) (w : WikiArticles)
    (title : String) (limit : Option Int) : PyDict × WikiArticles :=
  match svc w.wiki title with
  | none => (errorResult title, w)
  | some page =>
      let links := page.links
      let links := if pyTruthy limit then pySliceTo links (limit.getD 0) else links
      ([("title", Value.s page.title),
        ("links", Value.l links),
        ("total_links", Value.n page.links.length)], w)

/-- `WikiArticles.set_language`: `self.config.set_language(language)`
followed by re-acquiring the handle scoped to `self.config.language`
(the config update precedes the handle re-acquisition, so the new handle
reads the already-updated config). -/
def WikiArticles.set_language (w : WikiArticles) (language : String) :
    WikiArticles :=
  let config := w.config.set_language language
  ⟨config, config.language⟩

/-- Rendering of a `Value` into the f-string interpolation used by the CLI
(only the string case is ever reached). -/
def Value.pyStr : Value → String
  | Value.s str => str
  | Value.l xs => String.intercalate ", " xs
  | Value.n k => toString k

/-- Outcome of a CLI run: the printed lines and the process exit code. -/
structure CliResult where
  output : List String
  exitCode : Nat
deriving DecidableEq

/-- The usage line printed when the title argument is missing. -/
def usageMsg : String :=
  "Usage: python search_wiki_article.py <article_title> [language]"

/-- The `main` entry point as a function of the argument vector
(`argv.head? = program name`).  Missing title: usage plus exit code 1;
language defaults to `en` when absent; otherwise build `Config` and
`WikiArticles`, fetch the full article, and either print the error line
with exit code 1 or print the article report (exit code 0). -/
def cliMain (svc : Service) (argv : List String) : CliResult :=
  if argv.length < 2 then
    ⟨[usageMsg], 1⟩
  else
    let article_title := (argv.get? 1).getD ""
    let language := if argv.length > 2 then (argv.get? 2).getD "" else "en"
    let config : Config := ⟨language⟩
    let w := WikiArticles.init (some config)
    let line0 := "Configuration: " ++ config.reprStr
    let article := (WikiArticles.get_full_article svc w article_title).1
    match article.lookup "error" with
    | some v => ⟨[line0, "Error: " ++ v.pyStr], 1⟩
    | none =>
        let t := ((article.lookup "title").getD (Value.s "")).pyStr
        let u := ((article.lookup "url").getD (Value.s "")).pyStr
        let ft := ((article.lookup "full_text").getD (Value.s "")).pyStr
        let secs := match (article.lookup "sections").getD (Value.l []) with
          | Value.l xs => xs
          | _ => []
        ⟨[line0,
          "Title: " ++ t,
          "URL: " ++ u,
          "\n--- FULL ARTICLE ---",
          ft,
          "\n--- METADATA ---",
          "Total characters: " ++ toString ft.length,
          "Sections: " ++ String.intercalate ", " (secs.take 5) ++ "..."], 0⟩

/-! ### Concrete fixtures used by witnesses and counterexamples -/

/-- A page with ten outbound links, used as a concrete fixture. -/
def pageTen : PageData :=
  ⟨"Python", "https://en.wikipedia.org/wiki/Python",
   "Python is a programming language.", "full text", ["Cat1"],
   ["L1", "L2", "L3", "L4", "L5", "L6", "L7", "L8", "L9", "L10"],
   ["Overview", "History"]⟩

/-- A page with two outbound links, used as a concrete fixture. -/
def pageTwo : PageData :=
  ⟨"B", "u", "s", "t", [], ["a", "b"], []⟩

/-- A service on which every page exists and is `pageTen`. -/
def svcTen : Service := fun _ _ => some pageTen

/-- A service on which every page exists and is `pageTwo`. -/
def svcTwo : Service := fun _ _ => some pageTwo

/-- A service on which no page exists. -/
def svcNone : Service := fun _ _ => none

/-- The facade built from the default configuration. -/
def wDefault : WikiArticles := WikiArticles.init none

/-! ### Claims -/

/-- C1: for every title the service reports as non-existent, each of the
four read operations returns the dictionary whose only key is `error`,
whose value is `Page '<title>' does not exist` with the requested title
embedded verbatim.  The operations are total functions returning this
dictionary as a normal value; no fault is raised. -/
theorem notfound_uniform_error (svc : Service) (w : WikiArticles)
    (title : String) (h : svc w.wiki title = none) :
    (WikiArticles.get_full_article svc w title).1
        = [("error", Value.s ("Page \x27" ++ title ++ "\x27 does not exist"))]
    ∧ (WikiArticles.get_summary svc w title).1
        = [("error", Value.s ("Page \x27" ++ title ++ "\x27 does not exist"))]
    ∧ (WikiArticles.get_sections svc w title).1
        = [("error", Value.s ("Page \x27" ++ title ++ "\x27 does not exist"))]
    ∧ ∀ limit : Option Int, (WikiArticles.get_links svc w title limit).1
        = [("error", Value.s ("Page \x27" ++ title ++ "\x27 does not exist"))] := by
  refine ⟨?_, ?_, ?_, fun limit => ?_⟩ <;>
    simp [WikiArticles.get_full_article, WikiArticles.get_summary,
      WikiArticles.get_sections, WikiArticles.get_links, h, errorResult]

/-- C1 witness: the scenario of §8 of the spec, a service on which
`Atlantis` does not exist. -/
theorem notfound_uniform_error_witness :
    (WikiArticles.get_summary svcNone wDefault "Atlantis").1
        = [("error", Value.s "Page \x27Atlantis\x27 does not exist")]
    ∧ (WikiArticles.get_links svcNone wDefault "Atlantis" none).1
        = [("error", Value.s "Page \x27Atlantis\x27 does not exist")] :=
  ⟨(notfound_uniform_error svcNone wDefault "Atlantis" rfl).2.1,
   (notfound_uniform_error svcNone wDefault "Atlantis" rfl).2.2.2 none⟩

/-- C9: every read operation leaves the facade state (its `Config`,
including the language field, and the service handle) unchanged; only
`set_language` modifies it. -/
theorem read_ops_frame (svc : Service) (w : WikiArticles) (title : String)
    (limit : Option Int) :
    (WikiArticles.get_full_article svc w title).2 = w
    ∧ (WikiArticles.get_summary svc w title).2 = w
    ∧ (WikiArticles.get_sections svc w title).2 = w
    ∧ (WikiArticles.get_links svc w title limit).2 = w := by
  cases h : svc w.wiki title <;>
    exact ⟨by simp [WikiArticles.get_full_article, h],
           by simp [WikiArticles.get_summary, h],
           by simp [WikiArticles.get_sections, h],
           by simp [WikiArticles.get_links, h]⟩

/-- C6: after `set_language code`, the stored language is `code` (so
`to_dict` yields `language ↦ code` immediately), and the handle has been
re-acquired scoped to `code` (the handle is built from the already-updated
config, i.e. the config update precedes the re-acquisition), so every
subsequent fetch uses the new language. -/
theorem set_language_rebinds (w : WikiArticles) (code : String) :
    (w.set_language code).config.language = code
    ∧ (w.set_language code).config.to_dict = [("language", code)]
    ∧ (w.set_language code).wiki = code
    ∧ (w.set_language code).wiki = (w.set_language code).config.language
    ∧ ∀ (svc : Service) (title : String),
        (WikiArticles.get_summary svc (w.set_language code) title).1
          = (WikiArticles.get_summary svc ⟨⟨code⟩, code⟩ title).1 :=
  ⟨rfl, rfl, rfl, rfl, fun _ _ => rfl⟩

/-- C7: `Config` stores any non-empty language string verbatim, with no
format validation, and `to_dict` returns exactly `language ↦ X`. -/
theorem config_roundtrip (X : String) (_h : X ≠ "") :
    (Config.mk X).to_dict = [("language", X)] := by
  simp [Config.to_dict]

/-- C7 witness: an unrecognized code round-trips. -/
theorem config_roundtrip_witness :
    ("zz-unknown" : String) ≠ ""
    ∧ (Config.mk "zz-unknown").to_dict = [("language", "zz-unknown")] :=
  ⟨by decide, config_roundtrip "zz-unknown" (by decide)⟩

/-- Thirty distinct link titles, used as a concrete fixture. -/
def linksThirty : List String :=
  (List.range 30).map (fun i => "A" ++ toString i)

/-- A page with thirty outbound links, used as a concrete fixture. -/
def pageThirty : PageData :=
  ⟨"Python", "u", "Python is a programming language.", "t", [],
   linksThirty, ["Overview", "History"]⟩

/-- A service on which every page exists and is `pageThirty`. -/
def svcThirty : Service := fun _ _ => some pageThirty

/-- C2 counterexample: the claim says every non-positive limit returns all
entries, but on a page with links `a, b` and `limit = -1` (not a positive
integer) the code returns only `a`: `links[:-1]` drops the last entry. -/
theorem links_limit_counterexample :
    ((WikiArticles.get_links svcTwo wDefault "B" (some (-1))).1).lookup "links"
        = some (Value.l ["a"])
    ∧ ((WikiArticles.get_links svcTwo wDefault "B" (some (-1))).1).lookup "links"
        ≠ some (Value.l pageTwo.links) := by
  constructor <;> decide

/-- C2 (amended): `get_links` returns the first `limit` link titles when
`limit` is a positive integer, and returns all link entries when `limit`
is zero, falsy, or absent (a negative limit instead slices entries off the
end, see the negative-limit theorem). -/
theorem links_limit_branching (svc : Service) (w : WikiArticles)
    (title : String) (page : PageData) (h : svc w.wiki title = some page) :
    (∀ n : Int, 0 < n →
      ((WikiArticles.get_links svc w title (some n)).1).lookup "links"
        = some (Value.l (page.links.take n.toNat)))
    ∧ ((WikiArticles.get_links svc w title none).1).lookup "links"
        = some (Value.l page.links)
    ∧ ((WikiArticles.get_links svc w title (some 0)).1).lookup "links"
        = some (Value.l page.links) := by
  refine ⟨fun n hn => ?_, ?_, ?_⟩
  · have hne : n ≠ 0 := hn.ne'
    simp [WikiArticles.get_links, h, pyTruthy, pySliceTo, hne, hn.le,
      List.lookup]
  · simp [WikiArticles.get_links, h, pyTruthy, List.lookup]
  · simp [WikiArticles.get_links, h, pyTruthy, List.lookup]

/-- C2 witness: ten links with `limit = 5` gives the first five; `limit`
absent gives all ten. -/
theorem links_limit_branching_witness :
    ((WikiArticles.get_links svcTen wDefault "Python" (some 5)).1).lookup "links"
        = some (Value.l ["L1", "L2", "L3", "L4", "L5"])
    ∧ ((WikiArticles.get_links svcTen wDefault "Python" none).1).lookup "links"
        = some (Value.l pageTen.links) :=
  ⟨(links_limit_branching svcTen wDefault "Python" pageTen rfl).1 5 (by decide),
   (links_limit_branching svcTen wDefault "Python" pageTen rfl).2.1⟩

/-- C3: `total_links` is recomputed from the full, untruncated link list,
for every value of `limit`. -/
theorem total_links_untruncated (svc : Service) (w : WikiArticles)
    (title : String) (page : PageData) (limit : Option Int)
    (h : svc w.wiki title = some page) :
    ((WikiArticles.get_links svc w title limit).1).lookup "total_links"
      = some (Value.n page.links.length) := by
  simp [WikiArticles.get_links, h, List.lookup]

/-- C3 witness: ten links with `limit = 5` reports `total_links = 10`
while the `links` field has five entries. -/
theorem total_links_untruncated_witness :
    ((WikiArticles.get_links svcTen wDefault "Python" (some 5)).1).lookup "total_links"
        = some (Value.n 10)
    ∧ ((WikiArticles.get_links svcTen wDefault "Python" (some 5)).1).lookup "links"
        = some (Value.l ["L1", "L2", "L3", "L4", "L5"]) :=
  ⟨total_links_untruncated svcTen wDefault "Python" pageTen (some 5) rfl,
   by decide⟩

/-- C4: the `links` field of `get_full_article` is the first 20 link
titles in service order (`links[:20]`, no sorting or deduplication), so
its length is `min 20 (total links)`. -/
theorem full_article_links_first20 (svc : Service) (w : WikiArticles)
    (title : String) (page : PageData) (h : svc w.wiki title = some page) :
    ((WikiArticles.get_full_article svc w title).1).lookup "links"
        = some (Value.l (page.links.take 20))
    ∧ (page.links.take 20).length = min 20 page.links.length := by
  constructor
  · simp [WikiArticles.get_full_article, h, List.lookup]
  · simp [List.length_take]

/-- C4 witness: thirty links are truncated to the first twenty, in the
original order. -/
theorem full_article_links_first20_witness :
    ((WikiArticles.get_full_article svcThirty wDefault "Python").1).lookup "links"
        = some (Value.l (linksThirty.take 20))
    ∧ (linksThirty.take 20).length = 20 ∧ linksThirty.length = 30 :=
  ⟨(full_article_links_first20 svcThirty wDefault "Python" pageThirty rfl).1,
   by decide, by decide⟩

/-- C5: `get_summary` on an existing page returns exactly the two-entry
dictionary `title ↦ page.title, summary ↦ page.summary` and nothing else. -/
theorem summary_exactly_two_keys (svc : Service) (w : WikiArticles)
    (title : String) (page : PageData) (h : svc w.wiki title = some page) :
    (WikiArticles.get_summary svc w title).1
      = [("title", Value.s page.title), ("summary", Value.s page.summary)] := by
  simp [WikiArticles.get_summary, h]

/-- C5 witness: the concrete scenario of §8 of the spec. -/
theorem summary_exactly_two_keys_witness :
    (WikiArticles.get_summary svcThirty wDefault "Python").1
      = [("title", Value.s "Python"),
         ("summary", Value.s "Python is a programming language.")] :=
  summary_exactly_two_keys svcThirty wDefault "Python" pageThirty rfl

/-- C8: the CLI exits with code 1 after printing the usage message when
the title argument is missing; it exits with code 1 after printing a line
beginning `Error: ` when the fetched page does not exist; and a run
without a language argument behaves exactly like a run with language
`en`. -/
theorem cli_error_paths (svc : Service) :
    (∀ argv : List String, argv.length < 2 → cliMain svc argv = ⟨[usageMsg], 1⟩)
    ∧ (∀ prog t : String, svc "en" t = none →
        cliMain svc [prog, t]
          = ⟨["Configuration: " ++ Config.reprStr ⟨"en"⟩,
              "Error: " ++ ("Page \x27" ++ t ++ "\x27 does not exist")], 1⟩)
    ∧ (∀ prog t : String, cliMain svc [prog, t] = cliMain svc [prog, t, "en"]) := by
  refine ⟨fun argv hlen => ?_, fun prog t h => ?_, fun prog t => rfl⟩
  · simp [cliMain, hlen]
  · simp [cliMain, WikiArticles.init, WikiArticles.get_full_article, h,
      errorResult, List.lookup, Value.pyStr]

/-- C8 witness: a missing title prints usage and exits 1; a missing page
prints the `Error: ` line and exits 1. -/
theorem cli_error_paths_witness :
    cliMain svcNone ["prog"] = ⟨[usageMsg], 1⟩
    ∧ cliMain svcNone ["prog", "Atlantis"]
        = ⟨["Configuration: " ++ Config.reprStr ⟨"en"⟩,
            "Error: " ++ ("Page \x27Atlantis\x27 does not exist")], 1⟩ :=
  ⟨(cli_error_paths svcNone).1 ["prog"] (by decide),
   (cli_error_paths svcNone).2.1 "prog" "Atlantis" rfl⟩

/-- C10: for a negative limit `n`, `get_links` applies the Python slice
`links[:n]`: it keeps the first `(length + n)` entries, i.e. removes the
last `|n|` entries (clamping at zero), while `total_links` still reports
the full count. -/
theorem links_negative_limit (svc : Service) (w : WikiArticles)
    (title : String) (page : PageData) (h : svc w.wiki title = some page)
    (n : Int) (hn : n < 0) :
    ((WikiArticles.get_links svc w title (some n)).1).lookup "links"
        = some (Value.l (page.links.take ((page.links.length : Int) + n).toNat))
    ∧ (page.links.take ((page.links.length : Int) + n).toNat).length
        = page.links.length - (-n).toNat
    ∧ ((WikiArticles.get_links svc w title (some n)).1).lookup "total_links"
        = some (Value.n page.links.length) := by
  have hne : n ≠ 0 := hn.ne
  have hnot : ¬ (0 : Int) ≤ n := not_le.mpr hn
  refine ⟨?_, ?_, ?_⟩
  · simp [WikiArticles.get_links, h, pyTruthy, pySliceTo, hne, hnot,
      List.lookup]
  · simp only [List.length_take]
    omega
  · simp [WikiArticles.get_links, h, List.lookup]

/-- C10 witness: ten links with `limit = -1` yields the first nine links
and `total_links = 10`. -/
theorem links_negative_limit_witness :
    ((WikiArticles.get_links svcTen wDefault "Python" (some (-1))).1).lookup "links"
        = some (Value.l ["L1", "L2", "L3", "L4", "L5", "L6", "L7", "L8", "L9"])
    ∧ ((WikiArticles.get_links svcTen wDefault "Python" (some (-1))).1).lookup "total_links"
        = some (Value.n 10) :=
  ⟨(links_negative_limit svcTen wDefault "Python" pageTen rfl (-1) (by decide)).1,
   (links_negative_limit svcTen wDefault "Python" pageTen rfl (-1) (by decide)).2.2⟩
